import Mathlib

/-!
Verification of the kubernecetes-mcp-server orchestration layer.

This file shallowly embeds the Python source under `src/` into Lean:

* `Val` models the loosely typed YAML/JSON values that template
  configurations and patch bodies are made of (Python dicts are modelled
  as insertion-ordered association lists with unique keys, exactly the
  observable behaviour of `dict`).
* `dlookup` / `dinsert` / `dictMerge` model Python dict indexing, update
  and the `{**a, **b}` merge used by `create_pod` / `create_job`.
* The template catalogs `pod_templates` (from `pod_templates.py`) and
  `container_templates` (from `container_templates.py`) are transcribed
  verbatim.
* `track_resource` / `cleanup_resources` embed the tracked-resource
  registry of `k8s_manager.py` (a dict keyed by `"namespace/name"`).
* `apply_yaml` embeds the multi-document apply engine of `yaml_tools.py`;
  the remote API is an oracle (`ApplyEnv`), exceptions that escape a
  Python `try` are the `Except.error` branch, and the trace additionally
  records every remote call issued and every `KubernetesManager`
  construction.
* `create_pod` / `create_job` embed the template-based creation paths of
  `pod_tools.py` / `job_tools.py` (documents are assumed to carry their
  `metadata` block; the remote response object is opaque and rendered by
  the oracle).
* `rollout_deployment` / `update_patch` embed the corresponding parts of
  `deployment_tools.py`.
-/

namespace K8sMCP

/-- Loosely typed YAML/JSON value (Python `str` / `int` / `bool` / `list` /
`dict`); dicts are insertion-ordered association lists. -/
inductive Val where
  | s (x : String)
  | i (x : Int)
  | b (x : Bool)
  | arr (xs : List Val)
  | dict (xs : List (String × Val))

/-- Python truthiness of a value (`""`, `0`, `False`, `[]`, `{}` are falsy). -/
def Val.truthy : Val → Bool
  | .s x => !(x = "")
  | .i x => !(x = 0)
  | .b x => x
  | .arr xs => !xs.isEmpty
  | .dict xs => !xs.isEmpty

/-- Python `d.get(k)` / `d[k]` lookup on an association-list dict: the first
binding of the key (keys are unique in a real dict). -/
def dlookup {α : Type} (k : String) : List (String × α) → Option α
  | [] => none
  | (k', v) :: rest => if k' = k then some v else dlookup k rest

/-- Python `d[k] = v`: replace the binding in place if the key is present,
append it otherwise (insertion order is preserved, like `dict`). -/
def dinsert {α : Type} (k : String) (v : α) : List (String × α) → List (String × α)
  | [] => [(k, v)]
  | (k', v') :: rest =>
    if k' = k then (k', v) :: rest else (k', v') :: dinsert k v rest

/-- Python `{**base, **o}`: start from `base` and update with every binding
of `o` in order. -/
def dictMerge {α : Type} (base o : List (String × α)) : List (String × α) :=
  o.foldl (fun d kv => dinsert kv.1 kv.2 d) base

/-- Outcome of one remote API call: a rendered response object, or an
`ApiException` carrying a status and a message. -/
inductive ApiResult where
  | ok (resp : String)
  | apiExc (status : Int) (msg : String)

namespace PodTemplates

/-- `ContainerTemplate` enumeration of `pod_templates.py` (values equal the
member names). -/
inductive ContainerTemplate where
  | NGINX
  | REDIS
  | POSTGRES
  | MYSQL
  | CUSTOM
deriving DecidableEq

/-- Python `ContainerTemplate(template)`: lookup by enum value;
`ValueError` (here `none`) when the string is not a member value. -/
def ofValue (s : String) : Option ContainerTemplate :=
  if s = "NGINX" then some .NGINX
  else if s = "REDIS" then some .REDIS
  else if s = "POSTGRES" then some .POSTGRES
  else if s = "MYSQL" then some .MYSQL
  else if s = "CUSTOM" then some .CUSTOM
  else none

/-- The `pod_templates` catalog of `pod_templates.py`, transcribed. -/
def pod_templates : ContainerTemplate → List (String × Val)
  | .NGINX =>
    [("image", .s "nginx:latest"),
     ("ports", .arr [.dict [("containerPort", .i 80), ("protocol", .s "TCP"), ("name", .s "http")]]),
     ("resources", .dict
       [("requests", .dict [("cpu", .s "100m"), ("memory", .s "128Mi")]),
        ("limits", .dict [("cpu", .s "500m"), ("memory", .s "512Mi")])]),
     ("restartPolicy", .s "Always")]
  | .REDIS =>
    [("image", .s "redis:latest"),
     ("ports", .arr [.dict [("containerPort", .i 6379), ("protocol", .s "TCP"), ("name", .s "redis")]]),
     ("resources", .dict
       [("requests", .dict [("cpu", .s "100m"), ("memory", .s "128Mi")]),
        ("limits", .dict [("cpu", .s "500m"), ("memory", .s "512Mi")])]),
     ("restartPolicy", .s "Always")]
  | .POSTGRES =>
    [("image", .s "postgres:latest"),
     ("ports", .arr [.dict [("containerPort", .i 5432), ("protocol", .s "TCP"), ("name", .s "postgres")]]),
     ("env", .arr [.dict [("name", .s "POSTGRES_PASSWORD"), ("value", .s "postgres")]]),
     ("resources", .dict
       [("requests", .dict [("cpu", .s "200m"), ("memory", .s "256Mi")]),
        ("limits", .dict [("cpu", .s "1000m"), ("memory", .s "1Gi")])]),
     ("restartPolicy", .s "Always")]
  | .MYSQL =>
    [("image", .s "mysql:latest"),
     ("ports", .arr [.dict [("containerPort", .i 3306), ("protocol", .s "TCP"), ("name", .s "mysql")]]),
     ("env", .arr [.dict [("name", .s "MYSQL_ROOT_PASSWORD"), ("value", .s "mysql")]]),
     ("resources", .dict
       [("requests", .dict [("cpu", .s "200m"), ("memory", .s "256Mi")]),
        ("limits", .dict [("cpu", .s "1000m"), ("memory", .s "1Gi")])]),
     ("restartPolicy", .s "Always")]
  | .CUSTOM =>
    [("image", .s ""),
     ("ports", .arr []),
     ("env", .arr []),
     ("resources", .dict
       [("requests", .dict [("cpu", .s "100m"), ("memory", .s "128Mi")]),
        ("limits", .dict [("cpu", .s "500m"), ("memory", .s "512Mi")])]),
     ("restartPolicy", .s "Always")]

end PodTemplates

namespace ContainerTemplates

/-- `ContainerTemplate` enumeration of `container_templates.py` (values are
the lowercase strings, names are uppercase). -/
inductive ContainerTemplate where
  | NGINX
  | NODEJS
  | PYTHON
  | CUSTOM
deriving DecidableEq

/-- Python `ContainerTemplate(template)` on the job-side enumeration:
lookup by (lowercase) enum value. -/
def ofValue (s : String) : Option ContainerTemplate :=
  if s = "nginx" then some .NGINX
  else if s = "nodejs" then some .NODEJS
  else if s = "python" then some .PYTHON
  else if s = "custom" then some .CUSTOM
  else none

/-- The `container_templates` catalog of `container_templates.py`,
transcribed.  Note: the `CUSTOM` base carries no `image` key. -/
def container_templates : ContainerTemplate → List (String × Val)
  | .NGINX =>
    [("image", .s "nginx:latest"),
     ("ports", .arr [.dict [("containerPort", .i 80), ("protocol", .s "TCP"), ("name", .s "http")]]),
     ("resources", .dict
       [("requests", .dict [("cpu", .s "100m"), ("memory", .s "128Mi")]),
        ("limits", .dict [("cpu", .s "500m"), ("memory", .s "512Mi")])])]
  | .NODEJS =>
    [("image", .s "node:18"),
     ("ports", .arr [.dict [("containerPort", .i 3000), ("protocol", .s "TCP"), ("name", .s "http")]]),
     ("resources", .dict
       [("requests", .dict [("cpu", .s "200m"), ("memory", .s "256Mi")]),
        ("limits", .dict [("cpu", .s "1000m"), ("memory", .s "1Gi")])])]
  | .PYTHON =>
    [("image", .s "python:3.9"),
     ("ports", .arr [.dict [("containerPort", .i 8000), ("protocol", .s "TCP"), ("name", .s "http")]]),
     ("resources", .dict
       [("requests", .dict [("cpu", .s "200m"), ("memory", .s "256Mi")]),
        ("limits", .dict [("cpu", .s "1000m"), ("memory", .s "1Gi")])])]
  | .CUSTOM =>
    [("resources", .dict
       [("requests", .dict [("cpu", .s "100m"), ("memory", .s "128Mi")]),
        ("limits", .dict [("cpu", .s "500m"), ("memory", .s "512Mi")])])]

end ContainerTemplates

/-- One entry of the tracked-resource registry
(`_tracked_resources[key] = {"kind": ..., "name": ..., "namespace": ...}`). -/
structure TrackedResource where
  kind : String
  name : String
  nspace : String
deriving DecidableEq

/-- The `_tracked_resources` dict of `KubernetesManager`: keyed by the
string `f"{namespace}/{name}"`. -/
abbrev Registry := List (String × TrackedResource)

/-- `KubernetesManager.track_resource`: insert under key
`f"{namespace}/{name}"` (a later insert with the same key overwrites). -/
def track_resource (r : Registry) (kind name nspace : String) : Registry :=
  dinsert (nspace ++ "/" ++ name) ⟨kind, name, nspace⟩ r

/-- Which delete operation `cleanup_resources` issues for a given tracked
kind; `none` when the if/elif chain has no branch for the kind. -/
inductive DeleteOp where
  | deployment
  | service
  | pod
  | job
  | ingress
deriving DecidableEq

/-- The if/elif chain of `cleanup_resources` (k8s_manager.py lines 57-81):
only these five kinds have a delete branch. -/
def delete_op_for (kind : String) : Option DeleteOp :=
  if kind = "Deployment" then some .deployment
  else if kind = "Service" then some .service
  else if kind = "Pod" then some .pod
  else if kind = "Job" then some .job
  else if kind = "Ingress" then some .ingress
  else none

/-- Oracle for the delete calls issued during the teardown sweep
(arguments: kind, name, namespace). -/
structure CleanupEnv where
  delete : String → String → String → ApiResult

/-- The loop body of `cleanup_resources` over the registry's values, in
order: a kind with no branch issues no call; an `ApiException` from a
delete call is logged (second component) and the loop continues. -/
def cleanup_run (env : CleanupEnv) : List TrackedResource → List (DeleteOp × String × String) × List String
  | [] => ([], [])
  | e :: rest =>
    match delete_op_for e.kind with
    | none => cleanup_run env rest
    | some op =>
      match env.delete e.kind e.name e.nspace with
      | .ok _ =>
        let tail := cleanup_run env rest
        ((op, e.name, e.nspace) :: tail.1, tail.2)
      | .apiExc _ m =>
        let tail := cleanup_run env rest
        ((op, e.name, e.nspace) :: tail.1, m :: tail.2)

/-- Result of one teardown sweep: the delete calls issued (in order), the
logged per-entry failures, and the registry afterwards. -/
structure CleanupResult where
  calls : List (DeleteOp × String × String)
  failures : List String
  tracked : Registry

/-- `KubernetesManager.cleanup_resources`: iterate the registry's values,
issue kind-appropriate deletes, then `clear_tracked_resources()`
unconditionally. -/
def cleanup_resources (env : CleanupEnv) (r : Registry) : CleanupResult :=
  let run := cleanup_run env (r.map Prod.snd)
  { calls := run.1, failures := run.2, tracked := [] }

/-- Kinds passed to `track_resource` by the creation paths
(pod_tools.py:207, deployment_tools.py:213 and 385, cronjob_tools.py:171,
ingress_tools.py:128, service_tools.py:142, job_tools.py:163). -/
def creation_tracked_kinds : List String :=
  ["Pod", "Deployment", "Service", "CronJob", "Ingress", "Job"]

/-- A Python exception escaping a block of code that the surrounding code
did not catch locally. -/
inductive PyError where
  | apiExc (status : Int) (msg : String)
  | keyError (key : String)
  | typeError
  | attributeError
deriving DecidableEq

/-- The text Python `str(e)` yields for the exceptions above (for an
`ApiException` the rendered text is modelled by its stored message;
`str(KeyError(k))` is the repr of the key). -/
def py_error_str : PyError → String
  | .apiExc _ m => m
  | .keyError k => "KeyError: " ++ k
  | .typeError => "TypeError"
  | .attributeError => "AttributeError"

/-- One document of an apply batch, as decoded by `yaml.safe_load_all`:
either a falsy value (`None` / empty, skipped by `if not resource`), or a
mapping carrying an optional `kind` and a `metadata` block with name and
namespace. -/
inductive YamlDoc where
  | empty
  | res (kind : Option String) (name nspace : String)

/-- Oracle for the ConfigMap CRUD calls issued by `apply_yaml`
(arguments: name, namespace). -/
structure ApplyEnv where
  readConfigMap : String → String → ApiResult
  replaceConfigMap : String → String → ApiResult
  createConfigMap : String → String → ApiResult

/-- A remote call issued while processing an apply batch. -/
inductive ApiCall where
  | read (name nspace : String)
  | replace (name nspace : String)
  | create (name nspace : String)
deriving DecidableEq

/-- The inner try/except of `apply_yaml` for one ConfigMap document: read
then replace; an `ApiException` with status 404 from either falls to the
create path; any other `ApiException` (including one raised by create) is
re-raised (`raise e`), escaping as `Except.error`.  The second component
lists the remote calls issued. -/
def upsert_config_map (env : ApplyEnv) (name nspace : String) :
    Except PyError String × List ApiCall :=
  match env.readConfigMap name nspace with
  | .ok _ =>
    match env.replaceConfigMap name nspace with
    | .ok _ =>
      (.ok ("ConfigMap " ++ name ++ " updated successfully"),
       [.read name nspace, .replace name nspace])
    | .apiExc st m =>
      if st = 404 then
        match env.createConfigMap name nspace with
        | .ok _ =>
          (.ok ("ConfigMap " ++ name ++ " created successfully"),
           [.read name nspace, .replace name nspace, .create name nspace])
        | .apiExc st' m' =>
          (.error (.apiExc st' m'),
           [.read name nspace, .replace name nspace, .create name nspace])
      else
        (.error (.apiExc st m), [.read name nspace, .replace name nspace])
  | .apiExc st m =>
    if st = 404 then
      match env.createConfigMap name nspace with
      | .ok _ =>
        (.ok ("ConfigMap " ++ name ++ " created successfully"),
         [.read name nspace, .create name nspace])
      | .apiExc st' m' =>
        (.error (.apiExc st' m'), [.read name nspace, .create name nspace])
    else
      (.error (.apiExc st m), [.read name nspace])

/-- `if namespace: resource["metadata"]["namespace"] = namespace` — the
override applies only when the argument is truthy (a supplied empty string
does not override). -/
def override_ns (ns? : Option String) (nspace : String) : String :=
  match ns? with
  | some n => if n = "" then nspace else n
  | none => nspace

/-- Processing of a single document in the apply loop.  Returns the
outcome (`none` = skipped, `some msg` = report line appended, error = the
exception escaping the document), the number of `KubernetesManager`
constructions performed (yaml_tools.py:35 constructs one per ConfigMap
document), and the remote calls issued.  A document lacking `kind` raises
`KeyError("kind")` at the dispatch test `resource["kind"] == "ConfigMap"`. -/
def process_doc (env : ApplyEnv) (ns? : Option String) (d : YamlDoc) :
    Except PyError (Option String) × Nat × List ApiCall :=
  match d with
  | .empty => (.ok none, 0, [])
  | .res kind? name nspace =>
    match kind? with
    | none => (.error (.keyError "kind"), 0, [])
    | some k =>
      if k = "ConfigMap" then
        match upsert_config_map env name (override_ns ns? nspace) with
        | (.ok msg, cs) => (.ok (some msg), 1, cs)
        | (.error e, cs) => (.error e, 1, cs)
      else
        (.ok (some ("Unsupported resource kind: " ++ k)), 0, [])

/-- Trace of one apply run: the per-document report lines (or the first
escaping exception), the number of `KubernetesManager` constructions, and
the remote calls issued. -/
structure ApplyTrace where
  result : Except PyError (List String)
  managers : Nat
  calls : List ApiCall

/-- The `for resource in resources` loop of `apply_yaml`: accumulate
report lines; the first exception escaping a document aborts the loop. -/
def apply_loop (env : ApplyEnv) (ns? : Option String) :
    List YamlDoc → List String → Nat → List ApiCall → ApplyTrace
  | [], acc, n, cs => ⟨.ok acc, n, cs⟩
  | d :: rest, acc, n, cs =>
    match process_doc env ns? d with
    | (.ok none, n', cs') => apply_loop env ns? rest acc (n + n') (cs ++ cs')
    | (.ok (some msg), n', cs') =>
      apply_loop env ns? rest (acc ++ [msg]) (n + n') (cs ++ cs')
    | (.error e, n', cs') => ⟨.error e, n + n', cs ++ cs'⟩

/-- Observable result of `apply_yaml`: the returned string plus the
instrumentation of the trace. -/
structure ApplyResult where
  output : String
  managers : Nat
  calls : List ApiCall
deriving DecidableEq

/-- `apply_yaml` of yaml_tools.py: run the document loop; on success join
the report lines with newlines, and render any escaping exception as
`"Error applying YAML: " ++ str(e)` (the outer `except Exception`). -/
def apply_yaml (env : ApplyEnv) (ns? : Option String) (docs : List YamlDoc) :
    ApplyResult :=
  match apply_loop env ns? docs [] 0 [] with
  | ⟨.ok msgs, n, cs⟩ => ⟨String.intercalate "\n" msgs, n, cs⟩
  | ⟨.error e, n, cs⟩ => ⟨"Error applying YAML: " ++ py_error_str e, n, cs⟩

/-- `V1ContainerPort(container_port=port["containerPort"],
protocol=port.get("protocol", "TCP"), name=port.get("name"))`. -/
structure V1ContainerPort where
  container_port : Val
  protocol : Val
  name : Option Val

/-- `V1EnvVar(name=env["name"], value=env.get("value"),
value_from=env.get("valueFrom"))`. -/
structure V1EnvVar where
  name : Val
  value : Option Val
  value_from : Option Val

/-- `V1ResourceRequirements(requests=..., limits=...)`. -/
structure V1ResourceRequirements where
  requests : Option Val
  limits : Option Val

/-- `V1Container(...)` as built by `create_pod` / `create_job`. -/
structure V1Container where
  name : String
  image : Val
  ports : List V1ContainerPort
  env : List V1EnvVar
  resources : Option V1ResourceRequirements
  command : Option Val
  args : Option Val

/-- Build one container port; `port["containerPort"]` raises `KeyError`
when the entry lacks the key, and subscripting a non-mapping raises
`TypeError`. -/
def build_container_port (p : Val) : Except PyError V1ContainerPort :=
  match p with
  | .dict d =>
    match dlookup "containerPort" d with
    | some cp => .ok ⟨cp, (dlookup "protocol" d).getD (.s "TCP"), dlookup "name" d⟩
    | none => .error (.keyError "containerPort")
  | _ => .error .typeError

/-- Build one environment variable; `env["name"]` raises `KeyError` when
the entry lacks the key. -/
def build_env_var (e : Val) : Except PyError V1EnvVar :=
  match e with
  | .dict d =>
    match dlookup "name" d with
    | some n => .ok ⟨n, dlookup "value" d, dlookup "valueFrom" d⟩
    | none => .error (.keyError "name")
  | _ => .error .typeError

/-- `cfg.get(k, [])` followed by iteration: absent gives the empty list, a
list gives its items, any other value fails when iterated/subscripted. -/
def get_entry_list (cfg : List (String × Val)) (k : String) :
    Except PyError (List Val) :=
  match dlookup k cfg with
  | none => .ok []
  | some (.arr xs) => .ok xs
  | some _ => .error .typeError

/-- `create_pod`'s resources block: `if pod_config.get("resources"):` —
a truthiness test, so an absent or falsy value omits the block; a truthy
non-mapping value has no `.get` (AttributeError). -/
def build_resources_pod (cfg : List (String × Val)) :
    Except PyError (Option V1ResourceRequirements) :=
  match dlookup "resources" cfg with
  | none => .ok none
  | some v =>
    if v.truthy then
      match v with
      | .dict d => .ok (some ⟨dlookup "requests" d, dlookup "limits" d⟩)
      | _ => .error .attributeError
    else .ok none

/-- `create_job`'s resources block: `if "resources" in container_config:`
— a membership test (an empty mapping still yields a block). -/
def build_resources_job (cfg : List (String × Val)) :
    Except PyError (Option V1ResourceRequirements) :=
  match dlookup "resources" cfg with
  | none => .ok none
  | some (.dict d) => .ok (some ⟨dlookup "requests" d, dlookup "limits" d⟩)
  | some _ => .error .attributeError

/-- `pod_config["image"]`: `KeyError` when the merged configuration lacks
the key. -/
def get_image (cfg : List (String × Val)) : Except PyError Val :=
  match dlookup "image" cfg with
  | some v => .ok v
  | none => .error (.keyError "image")

/-- The merged configuration of `create_pod` (pod_tools.py lines 134-142):
`{**template_config, **custom_config}` when overrides are supplied, the
stored template itself otherwise. -/
def resolve_pod_config (t : PodTemplates.ContainerTemplate)
    (custom_config : Option (List (String × Val))) : List (String × Val) :=
  match custom_config with
  | some oc => dictMerge (PodTemplates.pod_templates t) oc
  | none => PodTemplates.pod_templates t

/-- The merged configuration of `create_job` (job_tools.py lines 81-89). -/
def resolve_job_config (t : ContainerTemplates.ContainerTemplate)
    (custom_config : Option (List (String × Val))) : List (String × Val) :=
  match custom_config with
  | some oc => dictMerge (ContainerTemplates.container_templates t) oc
  | none => ContainerTemplates.container_templates t

/-- A Python list comprehension over entries: build each element left to
right; the first exception escapes. -/
def build_list {α : Type} (f : Val → Except PyError α) :
    List Val → Except PyError (List α)
  | [] => .ok []
  | x :: xs =>
    (f x).bind fun y => (build_list f xs).bind fun ys => .ok (y :: ys)

/-- The container-construction section shared by `create_pod` /
`create_job` / `create_cronjob`, in source order: ports, env vars,
resources, then the container with `cfg["image"]`. -/
def build_container (name : String) (cfg : List (String × Val))
    (resources : Except PyError (Option V1ResourceRequirements)) :
    Except PyError V1Container := do
  let portEntries ← get_entry_list cfg "ports"
  let ports ← build_list build_container_port portEntries
  let envEntries ← get_entry_list cfg "env"
  let envs ← build_list build_env_var envEntries
  let res ← resources
  let image ← get_image cfg
  .ok ⟨name, image, ports, envs, res, dlookup "command" cfg, dlookup "args" cfg⟩

/-- The `V1Pod` object built by `create_pod` (provenance labels plus the
single container and the restart policy defaulting to `"Always"`). -/
structure V1Pod where
  name : String
  nspace : String
  labels : List (String × String)
  container : V1Container
  restart_policy : Val

/-- The `V1Job` object built by `create_job` (provenance labels, job
parameters, single container, restart policy fixed to `"OnFailure"`). -/
structure V1Job where
  name : String
  nspace : String
  labels : List (String × String)
  completions : Int
  parallelism : Int
  backoff_limit : Int
  container : V1Container
  restart_policy : Val

/-- Oracle for `create_namespaced_pod` (namespace, body). -/
structure PodApiEnv where
  create_namespaced_pod : String → V1Pod → ApiResult

/-- Oracle for `create_namespaced_job` (namespace, body). -/
structure JobApiEnv where
  create_namespaced_job : String → V1Job → ApiResult

/-- `create_pod` of pod_tools.py: template validation is the only guarded
step before the create call, and only `ApiException` from the create call
is caught; everything between (merge, port/env/resource construction)
runs outside any handler, so its exceptions escape (`Except.error`). -/
def create_pod (env : PodApiEnv) (reg : Registry)
    (name nspace template : String)
    (custom_config : Option (List (String × Val))) :
    Except PyError (String × Registry) :=
  match PodTemplates.ofValue template with
  | none =>
    .ok ("Invalid template. Must be one of: NGINX, REDIS, POSTGRES, MYSQL, CUSTOM", reg)
  | some t =>
    let cfg := resolve_pod_config t custom_config
    (build_container name cfg (build_resources_pod cfg)).bind fun container =>
      let pod : V1Pod :=
        ⟨name, nspace, [("mcp-managed", "true"), ("app", name)], container,
         (dlookup "restartPolicy" cfg).getD (.s "Always")⟩
      match env.create_namespaced_pod nspace pod with
      | .ok resp =>
        .ok ("Pod created successfully:\n" ++ resp,
             track_resource reg "Pod" name nspace)
      | .apiExc _ m => .ok ("Error creating pod: " ++ m, reg)

/-- `create_job` of job_tools.py: same shape as `create_pod`, with the
membership-style resources test, the job parameters, and `str(response)`
as the success text. -/
def create_job (env : JobApiEnv) (reg : Registry)
    (name nspace template : String)
    (completions parallelism backoff_limit : Int)
    (custom_config : Option (List (String × Val))) :
    Except PyError (String × Registry) :=
  match ContainerTemplates.ofValue template with
  | none =>
    .ok ("Invalid template. Must be one of: NGINX, NODEJS, PYTHON, CUSTOM", reg)
  | some t =>
    let cfg := resolve_job_config t custom_config
    (build_container name cfg (build_resources_job cfg)).bind fun container =>
      let job : V1Job :=
        ⟨name, nspace, [("mcp-managed", "true"), ("app", name)],
         completions, parallelism, backoff_limit, container, .s "OnFailure"⟩
      match env.create_namespaced_job nspace job with
      | .ok resp => .ok (resp, track_resource reg "Job" name nspace)
      | .apiExc _ m => .ok ("Error creating job: " ++ m, reg)

/-- Oracle for the deployment operations of deployment_tools.py
(patch takes name, namespace, body; read takes name, namespace). -/
structure AppsApiEnv where
  patch_namespaced_deployment : String → String → Val → ApiResult
  read_namespaced_deployment : String → String → ApiResult

/-- `rollout_deployment` of deployment_tools.py (lines 254-284): validate
the action, dispatch to a patch (restart), a patch with an identical body
(undo), or a read (status/history), and render an `ApiException` as text.
The two patch literals are transcribed separately, one per source
branch. -/
def rollout_deployment (env : AppsApiEnv)
    (deployment_name nspace action : String) : String :=
  if !(["status", "history", "restart", "undo"].contains action) then
    "Invalid action. Must be one of: status, history, restart, undo"
  else
    let response : ApiResult :=
      if action = "restart" then
        env.patch_namespaced_deployment deployment_name nspace
          (.dict [("spec", .dict [("template", .dict [("metadata", .dict
            [("annotations", .dict
              [("kubectl.kubernetes.io/restartedAt", .s "now")])])])])])
      else if action = "undo" then
        env.patch_namespaced_deployment deployment_name nspace
          (.dict [("spec", .dict [("template", .dict [("metadata", .dict
            [("annotations", .dict
              [("kubectl.kubernetes.io/restartedAt", .s "now")])])])])])
      else
        env.read_namespaced_deployment deployment_name nspace
    match response with
    | .ok resp => resp
    | .apiExc _ m => "Error performing rollout action: " ++ m

/-- One entry of `update_deployment`'s `env` argument
(`List[Dict[str, str]]` with `name` / `value` keys). -/
structure EnvPair where
  name : String
  value : String

/-- The body sent when `update_deployment` applies its `image` option. -/
def image_patch_val (deployment_name img : String) : Val :=
  .dict [("template", .dict [("spec", .dict [("containers", .arr
    [.dict [("name", .s deployment_name), ("image", .s img)]])])])]

/-- The body sent when `update_deployment` applies its `env` option. -/
def env_patch_val (deployment_name : String) (es : List EnvPair) : Val :=
  .dict [("template", .dict [("spec", .dict [("containers", .arr
    [.dict [("name", .s deployment_name),
            ("env", .arr (es.map fun e =>
              .dict [("name", .s e.name), ("value", .s e.value)]))]])])])]

/-- The `patch` dict built by `update_deployment` (deployment_tools.py
lines 296-311): each truthy option assigns `patch["spec"]` wholesale, in
the order image, replicas, env (`image` and `env` are truthiness tests,
`replicas` is an `is not None` test). -/
def update_patch (deployment_name : String) (image : Option String)
    (replicas : Option Int) (env : Option (List EnvPair)) :
    List (String × Val) :=
  let p : List (String × Val) := []
  let p := match image with
    | some img => if img = "" then p
        else dinsert "spec" (image_patch_val deployment_name img) p
    | none => p
  let p := match replicas with
    | some r => dinsert "spec" (.dict [("replicas", .i r)]) p
    | none => p
  match env with
  | some es => if es.isEmpty then p
      else dinsert "spec" (env_patch_val deployment_name es) p
  | none => p

/-- `update_deployment` of deployment_tools.py: send the accumulated patch
in one `patch_namespaced_deployment` call and render the outcome. -/
def update_deployment (api : AppsApiEnv) (deployment_name nspace : String)
    (image : Option String) (replicas : Option Int)
    (env : Option (List EnvPair)) : String :=
  match api.patch_namespaced_deployment deployment_name nspace
      (.dict (update_patch deployment_name image replicas env)) with
  | .ok resp => "Deployment updated successfully:\n" ++ resp
  | .apiExc _ m => "Error updating deployment: " ++ m

/-! ### Dictionary lemmas -/

/-- Looking a key up after an insert: the inserted key yields the new
value, any other key is unaffected. -/
theorem dlookup_dinsert {α : Type} (q k : String) (v : α)
    (d : List (String × α)) :
    dlookup q (dinsert k v d) = if k = q then some v else dlookup q d := by
  induction d with
  | nil =>
    simp only [dinsert, dlookup]
  | cons hd tl ih =>
    obtain ⟨k₀, v₀⟩ := hd
    simp only [dinsert]
    by_cases h₀ : k₀ = k
    · subst h₀
      by_cases hq : k₀ = q
      · subst hq
        simp [dlookup]
      · simp [dlookup, hq]
    · rw [if_neg h₀]
      by_cases hq : k₀ = q
      · subst hq
        have hk : ¬(k = k₀) := fun h => h₀ h.symm
        simp [dlookup, hk]
      · simp [dlookup, hq, ih]

/-- A key that occurs nowhere in the dict looks up to `none`. -/
theorem dlookup_eq_none {α : Type} (q : String) (d : List (String × α))
    (h : ¬ q ∈ d.map Prod.fst) : dlookup q d = none := by
  induction d with
  | nil => rfl
  | cons hd tl ih =>
    obtain ⟨k₀, v₀⟩ := hd
    simp only [List.map_cons, List.mem_cons] at h
    push_neg at h
    have hne : ¬(k₀ = q) := fun hq => h.1 hq.symm
    simp [dlookup, hne, ih h.2]

/-- The shallow-replace property of the Python merge `{**base, **o}`: a
key present in `o` (which has unique keys, as every real dict does) maps
to `o`'s value, a key absent from `o` maps to `base`'s value. -/
theorem dlookup_dictMerge {α : Type} (b o : List (String × α)) (q : String)
    (hnd : (o.map Prod.fst).Nodup) :
    dlookup q (dictMerge b o) =
      ((dlookup q o).elim (dlookup q b) some) := by
  induction o generalizing b with
  | nil => simp [dictMerge, dlookup]
  | cons hd tl ih =>
    obtain ⟨k, v⟩ := hd
    rw [List.map_cons, List.nodup_cons] at hnd
    obtain ⟨hk, htl⟩ := hnd
    have hstep : dictMerge b ((k, v) :: tl) = dictMerge (dinsert k v b) tl := rfl
    rw [hstep, ih (dinsert k v b) htl]
    by_cases hq : k = q
    · subst hq
      have htlnone : dlookup k tl = none := dlookup_eq_none k tl hk
      simp [dlookup, htlnone, dlookup_dinsert]
    · have hne : ¬(k = q) := hq
      cases h : dlookup q tl with
      | none => simp [dlookup, hne, h, dlookup_dinsert]
      | some w => simp [dlookup, hne, h]

/-- Re-inserting under the same key absorbs the earlier insert. -/
theorem dinsert_dinsert {α : Type} (k : String) (v v' : α)
    (d : List (String × α)) :
    dinsert k v' (dinsert k v d) = dinsert k v' d := by
  induction d with
  | nil => simp [dinsert]
  | cons hd tl ih =>
    obtain ⟨k₀, v₀⟩ := hd
    by_cases h₀ : k₀ = k
    · simp [dinsert, h₀]
    · simp [dinsert, h₀, ih]

/-! ### Template merging (C3) -/

/-- Claim C3: for every valid template identifier (on both the pod and the
job creation path) and every overrides dict `o`, the merged configuration
satisfies the shallow-replace invariant: a top-level key present in `o`
maps to exactly `o`'s value, and a key absent from `o` maps to the
template base's value. -/
theorem C3_shallow_merge
    (tP : PodTemplates.ContainerTemplate)
    (tJ : ContainerTemplates.ContainerTemplate)
    (o : List (String × Val)) (q : String)
    (hnd : (o.map Prod.fst).Nodup) :
    (∀ v, dlookup q o = some v →
      dlookup q (resolve_pod_config tP (some o)) = some v
      ∧ dlookup q (resolve_job_config tJ (some o)) = some v)
    ∧ (dlookup q o = none →
      dlookup q (resolve_pod_config tP (some o))
          = dlookup q (PodTemplates.pod_templates tP)
      ∧ dlookup q (resolve_job_config tJ (some o))
          = dlookup q (ContainerTemplates.container_templates tJ)) := by
  have hP := dlookup_dictMerge (PodTemplates.pod_templates tP) o q hnd
  have hJ := dlookup_dictMerge (ContainerTemplates.container_templates tJ) o q hnd
  constructor
  · intro v hv
    rw [resolve_pod_config, resolve_job_config, hP, hJ, hv]
    exact ⟨rfl, rfl⟩
  · intro hv
    rw [resolve_pod_config, resolve_job_config, hP, hJ, hv]
    exact ⟨rfl, rfl⟩

/-- Witness for C3 at a concrete input: overriding `image` replaces it
wholesale, and the untouched `ports` key is inherited from the base. -/
theorem C3_shallow_merge_witness :
    (([("image", Val.s "myimg:1")].map Prod.fst).Nodup)
    ∧ dlookup "image" (resolve_pod_config .NGINX (some [("image", Val.s "myimg:1")]))
        = some (Val.s "myimg:1")
    ∧ dlookup "ports" (resolve_pod_config .NGINX (some [("image", Val.s "myimg:1")]))
        = dlookup "ports" (PodTemplates.pod_templates .NGINX) := by
  refine ⟨by decide, ?_, ?_⟩
  · exact ((C3_shallow_merge .NGINX .NGINX [("image", Val.s "myimg:1")] "image"
      (by decide)).1 (Val.s "myimg:1") rfl).1
  · exact ((C3_shallow_merge .NGINX .NGINX [("image", Val.s "myimg:1")] "ports"
      (by decide)).2 rfl).1

/-! ### Tracked-resource registry (C4, C5, C6) -/

/-- The delete calls a sweep issues do not depend on the outcomes of any
delete call: an earlier failure never prevents a later attempt. -/
theorem cleanup_run_calls_indep (env env' : CleanupEnv) :
    ∀ l : List TrackedResource, (cleanup_run env l).1 = (cleanup_run env' l).1 := by
  intro l
  induction l with
  | nil => rfl
  | cons e rest ih =>
    simp only [cleanup_run]
    cases delete_op_for e.kind with
    | none => exact ih
    | some op =>
      cases env.delete e.kind e.name e.nspace <;>
        cases env'.delete e.kind e.name e.nspace <;>
          simp [ih]

/-- Claim C4: the teardown sweep is best-effort and clears the registry
unconditionally.  The sequence of delete calls issued is the same under
every oracle (so per-entry failures never stop the sweep from attempting
the remaining entries); the registry is empty after the sweep regardless
of outcomes (`sweep()` then `drain()` is empty); and a further sweep over
the drained registry attempts nothing, so a failed delete is never
retried. -/
theorem C4_sweep_best_effort_and_clears (env env' : CleanupEnv) (r : Registry) :
    (cleanup_resources env r).calls = (cleanup_resources env' r).calls
    ∧ (cleanup_resources env r).tracked = []
    ∧ (cleanup_resources env' (cleanup_resources env r).tracked).calls = []
    ∧ (cleanup_resources env' (cleanup_resources env r).tracked).tracked = [] :=
  ⟨cleanup_run_calls_indep env env' (r.map Prod.snd), rfl, rfl, rfl⟩

/-- A delete oracle that always succeeds. -/
def env_delete_ok : CleanupEnv := ⟨fun _ _ _ => .ok ""⟩

/-- Claim C5 evaluated at its failing input: `create_cronjob` records kind
`"CronJob"`, but the if/elif chain of `cleanup_resources` has no branch
for that kind, so a sweep over a registry holding one CronJob entry
issues no delete call at all — yet still clears the entry. -/
theorem C5_cronjob_entry_never_deleted :
    "CronJob" ∈ creation_tracked_kinds
    ∧ delete_op_for "CronJob" = none
    ∧ (cleanup_resources env_delete_ok
        (track_resource [] "CronJob" "nightly" "default")).calls = []
    ∧ (cleanup_resources env_delete_ok
        (track_resource [] "CronJob" "nightly" "default")).tracked = [] := by
  exact ⟨by simp [creation_tracked_kinds], rfl, rfl, rfl⟩

/-- Counterexample to claim C6: two records sharing namespace and name but
differing in kind do not stay as two distinct entries — the registry key
is `"namespace/name"` only, so the later record overwrites the earlier
one, leaving a single entry of the later kind. -/
theorem C6_counterexample :
    track_resource (track_resource [] "Deployment" "app" "ns") "Service" "app" "ns"
      = [("ns/app", ⟨"Service", "app", "ns"⟩)]
    ∧ (track_resource (track_resource [] "Deployment" "app" "ns") "Service" "app" "ns").length
      = 1 :=
  ⟨rfl, rfl⟩

/-- Claim C6 (amended): the registry is keyed by (namespace, name) alone.
Recording twice under the same namespace and name — with the same kind or
a different one — leaves exactly the entries of a single record of the
later call: the later record overwrites the earlier one. -/
theorem C6_registry_keyed_by_namespace_name (r : Registry) (k k' n ns : String) :
    track_resource (track_resource r k n ns) k' n ns = track_resource r k' n ns :=
  dinsert_dinsert (ns ++ "/" ++ n) _ _ r

/-! ### Deployment operations (C9, C10) -/

/-- Claim C9: for every deployment name, namespace and remote oracle, the
`"undo"` branch of `rollout_deployment` behaves exactly as the
`"restart"` branch — the two issue the identical patch request and render
the identical result. -/
theorem C9_undo_equals_restart (env : AppsApiEnv)
    (deployment_name nspace : String) :
    rollout_deployment env deployment_name nspace "undo"
      = rollout_deployment env deployment_name nspace "restart" := rfl

/-- Claim C10: when more than one of the `image` / `replicas` / `env`
options of `update_deployment` is supplied (with truthy values), each
supplied option reassigns the patch's entire `"spec"` value wholesale in
the fixed check order image, replicas, env — so only the last supplied
option survives in the patch actually sent. -/
theorem C10_update_last_option_wins (n img : String) (r : Int)
    (es : List EnvPair) (himg : ¬(img = "")) (hes : es.isEmpty = false) :
    update_patch n (some img) (some r) none
      = [("spec", Val.dict [("replicas", Val.i r)])]
    ∧ update_patch n (some img) none (some es) = [("spec", env_patch_val n es)]
    ∧ update_patch n none (some r) (some es) = [("spec", env_patch_val n es)]
    ∧ update_patch n (some img) (some r) (some es) = [("spec", env_patch_val n es)]
    ∧ update_patch n (some img) none none = [("spec", image_patch_val n img)] := by
  refine ⟨?_, ?_, ?_, ?_, ?_⟩ <;>
    simp [update_patch, himg, hes, dinsert]

/-- Witness for C10 at a concrete input: supplying both image and env
sends a patch containing only the env change. -/
theorem C10_update_last_option_wins_witness :
    ¬(("nginx:2" : String) = "")
    ∧ ([⟨"A", "1"⟩] : List EnvPair).isEmpty = false
    ∧ update_patch "web" (some "nginx:2") none (some [⟨"A", "1"⟩])
      = [("spec", env_patch_val "web" [⟨"A", "1"⟩])] :=
  ⟨by decide, rfl,
   (C10_update_last_option_wins "web" "nginx:2" 0 [⟨"A", "1"⟩]
     (by decide) rfl).2.1⟩

/-! ### Multi-document apply engine (C1, C2, C8) -/

/-- If processing a document raises an exception, the apply loop never
looks past that document: the whole run is identical to the run over the
batch truncated right after the failing document. -/
theorem apply_loop_stops_at_error (env : ApplyEnv) (ns? : Option String)
    (d : YamlDoc) (e : PyError)
    (hd : (process_doc env ns? d).1 = .error e) :
    ∀ (docs₁ docs₂ : List YamlDoc) (acc : List String) (n : Nat)
      (cs : List ApiCall),
      apply_loop env ns? (docs₁ ++ d :: docs₂) acc n cs
        = apply_loop env ns? (docs₁ ++ [d]) acc n cs := by
  intro docs₁
  induction docs₁ with
  | nil =>
    intro docs₂ acc n cs
    rcases hp : process_doc env ns? d with ⟨res, n', cs'⟩
    rw [hp] at hd
    simp only at hd
    subst hd
    simp [apply_loop, hp]
  | cons d' tl ih =>
    intro docs₂ acc n cs
    rcases hp' : process_doc env ns? d' with ⟨res', n', cs'⟩
    simp only [List.cons_append, apply_loop, hp']
    cases res' with
    | ok o =>
      cases o with
      | none => exact ih docs₂ acc (n + n') (cs ++ cs')
      | some msg => exact ih docs₂ (acc ++ [msg]) (n + n') (cs ++ cs')
    | error e' => rfl

/-- An apply oracle under which every call succeeds. -/
def env_apply_ok : ApplyEnv :=
  ⟨fun _ _ => .ok "", fun _ _ => .ok "", fun _ _ => .ok ""⟩

/-- An apply oracle under which reading the ConfigMap named `"a"` fails
with status 500 and every other call succeeds. -/
def env_read_a_fails : ApplyEnv :=
  ⟨fun n _ => if n = "a" then .apiExc 500 "boom" else .ok "",
   fun _ _ => .ok "", fun _ _ => .ok ""⟩

/-- A ConfigMap document carrying the given metadata. -/
def doc_cm (n ns : String) : YamlDoc := .res (some "ConfigMap") n ns

/-- Counterexample to claim C1: in a batch whose first ConfigMap document
fails its read with a non-404 status, the whole apply aborts — the result
is the single outer error string, only one remote call was ever issued,
and the second document is never dispatched (no call for it, no report
line for it). -/
theorem C1_counterexample :
    apply_yaml env_read_a_fails none [doc_cm "a" "default", doc_cm "b" "default"]
      = ⟨"Error applying YAML: boom", 1, [ApiCall.read "a" "default"]⟩ := rfl

/-- Claim C1 (amended): a read or write failure that is neither the
not-found case nor an unsupported kind aborts the entire batch, not just
the failing document: the run over the batch equals the run over the
batch truncated right after the failing document, so later documents are
never dispatched and never appear in the report; the result is the single
`"Error applying YAML: ..."` string rendered by the outer handler. -/
theorem C1_api_error_aborts_batch (env : ApplyEnv) (ns? : Option String)
    (docs₁ docs₂ : List YamlDoc) (d : YamlDoc) (e : PyError)
    (hd : (process_doc env ns? d).1 = .error e) :
    apply_yaml env ns? (docs₁ ++ d :: docs₂)
      = apply_yaml env ns? (docs₁ ++ [d]) := by
  unfold apply_yaml
  rw [apply_loop_stops_at_error env ns? d e hd]

/-- Witness for C1 (amended) at a concrete input. -/
theorem C1_api_error_aborts_batch_witness :
    (process_doc env_read_a_fails none (doc_cm "a" "default")).1
      = .error (.apiExc 500 "boom")
    ∧ apply_yaml env_read_a_fails none
        ([] ++ doc_cm "a" "default" :: [doc_cm "b" "default"])
      = apply_yaml env_read_a_fails none ([] ++ [doc_cm "a" "default"]) :=
  ⟨rfl, C1_api_error_aborts_batch env_read_a_fails none []
    [doc_cm "b" "default"] (doc_cm "a" "default") (.apiExc 500 "boom") rfl⟩

/-- Counterexample to claim C2: a non-empty document lacking `kind` is not
skipped — the `resource["kind"]` dispatch raises `KeyError`, the outer
handler turns the whole apply into an error string, and the following
(perfectly fine) ConfigMap document is never processed: no remote call is
issued and no report line is produced for it. -/
theorem C2_counterexample :
    apply_yaml env_apply_ok none [.res none "x" "default", doc_cm "b" "default"]
      = ⟨"Error applying YAML: KeyError: kind", 0, []⟩ := rfl

/-- Claim C2 (amended): a document that decodes to a mapping lacking a
`kind` field raises `KeyError("kind")`, and that exception aborts the
entire batch: the run equals the run truncated right after the offending
document, so every later document goes unprocessed and unreported. -/
theorem C2_missing_kind_aborts_batch (env : ApplyEnv) (ns? : Option String)
    (docs₁ docs₂ : List YamlDoc) (name nspace : String) :
    (process_doc env ns? (.res none name nspace)).1 = .error (.keyError "kind")
    ∧ apply_yaml env ns? (docs₁ ++ .res none name nspace :: docs₂)
        = apply_yaml env ns? (docs₁ ++ [.res none name nspace]) := by
  constructor
  · rfl
  · unfold apply_yaml
    rw [apply_loop_stops_at_error env ns? (.res none name nspace)
      (.keyError "kind") rfl]

/-- Counterexample to claim C8: one apply call over two ConfigMap
documents constructs two fresh `KubernetesManager` facades (one per
document, at yaml_tools.py:35), each re-running credential/config
discovery — not zero, as "construction happens exactly once at process
start" requires. -/
theorem C8_counterexample :
    (apply_yaml env_apply_ok none
      [doc_cm "a" "default", doc_cm "b" "default"]).managers = 2 := rfl

/-- Under the all-ok oracle, the loop constructs exactly one manager for
every ConfigMap document in the batch. -/
theorem apply_loop_managers_configmaps (ns? : Option String) :
    ∀ (docs : List YamlDoc) (acc : List String) (n : Nat)
      (cs : List ApiCall),
      (∀ d ∈ docs, ∃ nm ns, d = YamlDoc.res (some "ConfigMap") nm ns) →
      (apply_loop env_apply_ok ns? docs acc n cs).managers = n + docs.length := by
  intro docs
  induction docs with
  | nil => intro acc n cs _; simp [apply_loop]
  | cons d tl ih =>
    intro acc n cs h
    obtain ⟨nm, ns, rfl⟩ := h d (List.mem_cons_self d tl)
    have hp : process_doc env_apply_ok ns? (YamlDoc.res (some "ConfigMap") nm ns)
        = (.ok (some ("ConfigMap " ++ nm ++ " updated successfully")), 1,
           [.read nm (override_ns ns? ns), .replace nm (override_ns ns? ns)]) := rfl
    simp only [apply_loop, hp]
    rw [ih _ _ _ (fun d' hd' => h d' (List.mem_cons_of_mem _ hd'))]
    simp only [List.length_cons]
    omega

/-- Claim C8 (amended): far from constructing the API facade exactly once
at process start, the apply engine constructs one fresh facade per
ConfigMap document it processes — over a batch of n successfully applied
ConfigMap documents, n managers are constructed. -/
theorem C8_manager_per_configmap_doc (ns? : Option String)
    (docs : List YamlDoc)
    (h : ∀ d ∈ docs, ∃ nm ns, d = YamlDoc.res (some "ConfigMap") nm ns) :
    (apply_yaml env_apply_ok ns? docs).managers = docs.length := by
  have hloop := apply_loop_managers_configmaps ns? docs [] 0 [] h
  unfold apply_yaml
  rcases htr : apply_loop env_apply_ok ns? docs [] 0 [] with ⟨res, n, cs⟩
  rw [htr] at hloop
  cases res <;> simpa using hloop

/-- Witness for C8 (amended) at a concrete input. -/
theorem C8_manager_per_configmap_doc_witness :
    (∀ d ∈ [doc_cm "a" "default"],
      ∃ nm ns, d = YamlDoc.res (some "ConfigMap") nm ns)
    ∧ (apply_yaml env_apply_ok none [doc_cm "a" "default"]).managers
        = [doc_cm "a" "default"].length := by
  have h : ∀ d ∈ [doc_cm "a" "default"],
      ∃ nm ns, d = YamlDoc.res (some "ConfigMap") nm ns := by
    intro d hd
    rw [List.mem_singleton] at hd
    exact ⟨"a", "default", by rw [hd]; rfl⟩
  exact ⟨h, C8_manager_per_configmap_doc none [doc_cm "a" "default"] h⟩

/-! ### Totality of the creation operations (C7) -/

/-- Whether a computation returned normally (no exception escaped). -/
def exceptOk {ε α : Type} : Except ε α → Bool
  | .ok _ => true
  | .error _ => false

/-- A port entry the builder can consume: a mapping carrying
`containerPort`. -/
def port_entry_ok : Val → Bool
  | .dict d => (dlookup "containerPort" d).isSome
  | _ => false

/-- An env entry the builder can consume: a mapping carrying `name`. -/
def env_entry_ok : Val → Bool
  | .dict d => (dlookup "name" d).isSome
  | _ => false

/-- A list-valued configuration key the builder can consume: absent, or a
list all of whose entries satisfy the entry predicate. -/
def entry_list_ok (cfg : List (String × Val)) (k : String)
    (p : Val → Bool) : Bool :=
  match dlookup k cfg with
  | none => true
  | some (.arr xs) => xs.all p
  | some _ => false

/-- A `resources` value `create_pod` can consume: absent, a mapping, or
falsy (the truthiness test skips it). -/
def resources_ok_pod (cfg : List (String × Val)) : Bool :=
  match dlookup "resources" cfg with
  | none => true
  | some (.dict _) => true
  | some v => !v.truthy

/-- A `resources` value `create_job` can consume: absent or a mapping
(the membership test does not skip falsy non-mappings). -/
def resources_ok_job (cfg : List (String × Val)) : Bool :=
  match dlookup "resources" cfg with
  | none => true
  | some (.dict _) => true
  | some _ => false

/-- A merged configuration on which `create_pod`'s unguarded construction
section cannot raise. -/
def cfg_ok_pod (cfg : List (String × Val)) : Bool :=
  entry_list_ok cfg "ports" port_entry_ok
    && entry_list_ok cfg "env" env_entry_ok
    && resources_ok_pod cfg
    && (dlookup "image" cfg).isSome

/-- A merged configuration on which `create_job`'s unguarded construction
section cannot raise. -/
def cfg_ok_job (cfg : List (String × Val)) : Bool :=
  entry_list_ok cfg "ports" port_entry_ok
    && entry_list_ok cfg "env" env_entry_ok
    && resources_ok_job cfg
    && (dlookup "image" cfg).isSome

/-- Binding a returned value just applies the continuation. -/
theorem except_bind_ok {ε α β : Type} (a : α) (f : α → Except ε β) :
    (Except.ok a : Except ε α) >>= f = f a := rfl

/-- Binding a returned value, method form. -/
theorem except_ok_bind {ε α β : Type} (a : α) (f : α → Except ε β) :
    (Except.ok a : Except ε α).bind f = f a := rfl

/-- A well-formed port entry builds without raising. -/
theorem build_container_port_ok (v : Val) (h : port_entry_ok v = true) :
    ∃ x, build_container_port v = .ok x := by
  cases v with
  | dict d =>
    rw [port_entry_ok] at h
    obtain ⟨cp, hcp⟩ := Option.isSome_iff_exists.mp h
    exact ⟨_, by rw [build_container_port, hcp]⟩
  | s x => simp [port_entry_ok] at h
  | i x => simp [port_entry_ok] at h
  | b x => simp [port_entry_ok] at h
  | arr xs => simp [port_entry_ok] at h

/-- A well-formed env entry builds without raising. -/
theorem build_env_var_ok (v : Val) (h : env_entry_ok v = true) :
    ∃ x, build_env_var v = .ok x := by
  cases v with
  | dict d =>
    rw [env_entry_ok] at h
    obtain ⟨n, hn⟩ := Option.isSome_iff_exists.mp h
    exact ⟨_, by rw [build_env_var, hn]⟩
  | s x => simp [env_entry_ok] at h
  | i x => simp [env_entry_ok] at h
  | b x => simp [env_entry_ok] at h
  | arr xs => simp [env_entry_ok] at h

/-- A comprehension over entries that each build cleanly returns a list. -/
theorem build_list_ok {α : Type} (f : Val → Except PyError α)
    (p : Val → Bool) (hf : ∀ v, p v = true → ∃ x, f v = .ok x) :
    ∀ xs : List Val, xs.all p = true → ∃ ys, build_list f xs = .ok ys := by
  intro xs
  induction xs with
  | nil => intro _; exact ⟨[], rfl⟩
  | cons x tl ih =>
    intro h
    rw [List.all_cons, Bool.and_eq_true] at h
    obtain ⟨y, hy⟩ := hf x h.1
    obtain ⟨ys, hys⟩ := ih h.2
    exact ⟨y :: ys, by
      rw [build_list, hy, except_ok_bind, hys, except_ok_bind]⟩

/-- A well-formed list-valued key is extracted as a list of well-formed
entries. -/
theorem get_entry_list_ok (cfg : List (String × Val)) (k : String)
    (p : Val → Bool) (h : entry_list_ok cfg k p = true) :
    ∃ xs, get_entry_list cfg k = .ok xs ∧ xs.all p = true := by
  rw [entry_list_ok] at h
  cases hv : dlookup k cfg with
  | none => exact ⟨[], by rw [get_entry_list, hv], rfl⟩
  | some v =>
    rw [hv] at h
    cases v with
    | arr xs => exact ⟨xs, by rw [get_entry_list, hv], h⟩
    | s x => simp at h
    | i x => simp at h
    | b x => simp at h
    | dict d => simp at h

/-- A well-formed pod `resources` value builds without raising. -/
theorem build_resources_pod_ok (cfg : List (String × Val))
    (h : resources_ok_pod cfg = true) :
    ∃ r, build_resources_pod cfg = .ok r := by
  rw [resources_ok_pod] at h
  cases hv : dlookup "resources" cfg with
  | none => exact ⟨none, by rw [build_resources_pod, hv]⟩
  | some v =>
    rw [hv] at h
    cases v with
    | dict d =>
      by_cases ht : (Val.dict d).truthy = true
      · exact ⟨some ⟨dlookup "requests" d, dlookup "limits" d⟩, by
          simp [build_resources_pod, hv, ht]⟩
      · exact ⟨none, by simp [build_resources_pod, hv, ht]⟩
    | s x =>
      have ht : (Val.s x).truthy = false := by simpa using h
      exact ⟨none, by simp [build_resources_pod, hv, ht]⟩
    | i x =>
      have ht : (Val.i x).truthy = false := by simpa using h
      exact ⟨none, by simp [build_resources_pod, hv, ht]⟩
    | b x =>
      have ht : (Val.b x).truthy = false := by simpa using h
      exact ⟨none, by simp [build_resources_pod, hv, ht]⟩
    | arr xs =>
      have ht : (Val.arr xs).truthy = false := by simpa using h
      exact ⟨none, by simp [build_resources_pod, hv, ht]⟩

/-- A well-formed job `resources` value builds without raising. -/
theorem build_resources_job_ok (cfg : List (String × Val))
    (h : resources_ok_job cfg = true) :
    ∃ r, build_resources_job cfg = .ok r := by
  rw [resources_ok_job] at h
  cases hv : dlookup "resources" cfg with
  | none => exact ⟨none, by rw [build_resources_job, hv]⟩
  | some v =>
    rw [hv] at h
    cases v with
    | dict d => exact ⟨_, by rw [build_resources_job, hv]⟩
    | s x => simp at h
    | i x => simp at h
    | b x => simp at h
    | arr xs => simp at h

/-- A configuration carrying `image` yields it without raising. -/
theorem get_image_ok (cfg : List (String × Val))
    (h : (dlookup "image" cfg).isSome = true) :
    ∃ v, get_image cfg = .ok v := by
  obtain ⟨v, hv⟩ := Option.isSome_iff_exists.mp h
  exact ⟨v, by rw [get_image, hv]⟩

/-- The whole unguarded construction section succeeds on a well-formed
configuration. -/
theorem build_container_ok (name : String) (cfg : List (String × Val))
    (rres : Except PyError (Option V1ResourceRequirements))
    (hports : entry_list_ok cfg "ports" port_entry_ok = true)
    (henv : entry_list_ok cfg "env" env_entry_ok = true)
    (hres : ∃ r, rres = .ok r)
    (himg : (dlookup "image" cfg).isSome = true) :
    ∃ c, build_container name cfg rres = .ok c := by
  obtain ⟨pes, hpes, hpall⟩ := get_entry_list_ok cfg "ports" port_entry_ok hports
  obtain ⟨ps, hps⟩ := build_list_ok build_container_port port_entry_ok
    build_container_port_ok pes hpall
  obtain ⟨ees, hees, heall⟩ := get_entry_list_ok cfg "env" env_entry_ok henv
  obtain ⟨es, hes⟩ := build_list_ok build_env_var env_entry_ok
    build_env_var_ok ees heall
  obtain ⟨r, hr⟩ := hres
  obtain ⟨img, himg'⟩ := get_image_ok cfg himg
  refine ⟨⟨name, img, ps, es, r, dlookup "command" cfg, dlookup "args" cfg⟩, ?_⟩
  unfold build_container
  rw [hpes, except_bind_ok, hps, except_bind_ok, hees, except_bind_ok,
    hes, except_bind_ok, hr, except_bind_ok, himg', except_bind_ok]

/-- An oracle under which every job create fails with status 503. -/
def env_job_503 : JobApiEnv := ⟨fun _ _ => .apiExc 503 "unavailable"⟩

/-- An oracle under which every pod create succeeds. -/
def env_pod_ok : PodApiEnv := ⟨fun _ _ => .ok "pod-created"⟩

/-- Counterexample to claim C7: `create_job` with the `custom` template
and no overrides reaches `container_config["image"]` on a base that lacks
an `image` key, and the resulting `KeyError` escapes to the outer
dispatch framework instead of being rendered as a text result. -/
theorem C7_counterexample :
    create_job env_job_503 [] "j" "default" "custom" 1 1 6 none
      = .error (.keyError "image") := rfl

/-- Claim C7 (amended): the operations are total only on inputs whose
merged configuration is well-formed.  Whenever the resolved configuration
satisfies the well-formedness predicate (each port entry carries
`containerPort`, each env entry carries `name`, `resources` is consumable
and `image` is present), `create_pod` and `create_job` return a text
result for every remote outcome — an invalid template identifier and a
remote rejection are both rendered as text, never raised. -/
theorem C7_total_on_wellformed_configs
    (envP : PodApiEnv) (envJ : JobApiEnv) (regP regJ : Registry)
    (nameP nsP tmplP nameJ nsJ tmplJ : String) (c p bl : Int)
    (customP customJ : Option (List (String × Val)))
    (hP : ∀ t, PodTemplates.ofValue tmplP = some t →
      cfg_ok_pod (resolve_pod_config t customP) = true)
    (hJ : ∀ t, ContainerTemplates.ofValue tmplJ = some t →
      cfg_ok_job (resolve_job_config t customJ) = true) :
    exceptOk (create_pod envP regP nameP nsP tmplP customP) = true
    ∧ exceptOk (create_job envJ regJ nameJ nsJ tmplJ c p bl customJ) = true := by
  constructor
  · cases hv : PodTemplates.ofValue tmplP with
    | none => simp [create_pod, hv, exceptOk]
    | some t =>
      have hcfg := hP t hv
      rw [cfg_ok_pod, Bool.and_eq_true, Bool.and_eq_true, Bool.and_eq_true] at hcfg
      obtain ⟨⟨⟨h1, h2⟩, h3⟩, h4⟩ := hcfg
      obtain ⟨ctr, hc⟩ := build_container_ok nameP _ _ h1 h2
        (build_resources_pod_ok _ h3) h4
      simp only [create_pod, hv]
      rw [hc, except_ok_bind]
      cases envP.create_namespaced_pod nsP _ <;> rfl
  · cases hv : ContainerTemplates.ofValue tmplJ with
    | none => simp [create_job, hv, exceptOk]
    | some t =>
      have hcfg := hJ t hv
      rw [cfg_ok_job, Bool.and_eq_true, Bool.and_eq_true, Bool.and_eq_true] at hcfg
      obtain ⟨⟨⟨h1, h2⟩, h3⟩, h4⟩ := hcfg
      obtain ⟨ctr, hc⟩ := build_container_ok nameJ _ _ h1 h2
        (build_resources_job_ok _ h3) h4
      simp only [create_job, hv]
      rw [hc, except_ok_bind]
      cases envJ.create_namespaced_job nsJ _ <;> rfl

/-- Witness for C7 (amended) at concrete inputs: the NGINX templates are
well-formed, and even a remote 503 on the job create is rendered as a
text result rather than raised. -/
theorem C7_total_on_wellformed_configs_witness :
    (∀ t, PodTemplates.ofValue "NGINX" = some t →
      cfg_ok_pod (resolve_pod_config t none) = true)
    ∧ (∀ t, ContainerTemplates.ofValue "nginx" = some t →
      cfg_ok_job (resolve_job_config t none) = true)
    ∧ exceptOk (create_pod env_pod_ok [] "web" "default" "NGINX" none) = true
    ∧ exceptOk (create_job env_job_503 [] "j" "default" "nginx" 1 1 6 none) = true := by
  have hP : ∀ t, PodTemplates.ofValue "NGINX" = some t →
      cfg_ok_pod (resolve_pod_config t none) = true := by
    intro t ht
    have h0 : PodTemplates.ofValue "NGINX" = some .NGINX := rfl
    rw [h0] at ht
    cases Option.some.inj ht
    rfl
  have hJ : ∀ t, ContainerTemplates.ofValue "nginx" = some t →
      cfg_ok_job (resolve_job_config t none) = true := by
    intro t ht
    have h0 : ContainerTemplates.ofValue "nginx" = some .NGINX := rfl
    rw [h0] at ht
    cases Option.some.inj ht
    rfl
  obtain ⟨hPok, hJok⟩ := C7_total_on_wellformed_configs env_pod_ok env_job_503
    [] [] "web" "default" "NGINX" "j" "default" "nginx" 1 1 6 none none hP hJ
  exact ⟨hP, hJ, hPok, hJok⟩

end K8sMCP
